import Mathlib

/-!
Shallow embedding of `Planets.py`, an interactive gravitational N-body planet
simulator.  Float arithmetic of the source is modelled by exact rational
arithmetic; the single transcendental operation of the program, `math.sqrt`,
is passed in as an explicit parameter `sqrtp : ℚ → ℚ` of every definition
that calls it, so that every definition stays executable.  Concrete theorem
instances supply square-root functions that agree with the mathematical
square root at every point where they are sampled.  Rendering calls
(`pygame.draw`, fonts, `screen.blit`, `pygame.display`) are external
collaborators and are not modelled.
-/

namespace PlanetSim

/-- Gravity constant, line 20: `G = 6.6743e-11`. -/
def G : ℚ := 66743 / 10^15

/-- Zoomed out scale, line 21: `SCALE = 2.5e-11`. -/
def SCALE : ℚ := 25 / 10^12

/-- Zoomed in scale, line 22: `ZOOM_SCALE = 1e-10`. -/
def ZOOM_SCALE : ℚ := 1 / 10^10

/-- Time step, line 23: `DT = 3600` (1 hour). -/
def DT : ℚ := 3600

/-- Line 7: `WIDTH, HEIGHT = 900, 600`. -/
def WIDTH : ℕ := 900

/-- Line 7: `WIDTH, HEIGHT = 900, 600`. -/
def HEIGHT : ℕ := 600

/-- Python `int(...)` applied to a float truncates toward zero. -/
def truncQ (q : ℚ) : ℤ := if 0 ≤ q then ⌊q⌋ else ⌈q⌉

/-- The state of one body (class `Body`, lines 37-54): physical state,
display attributes, and the screen-space trail. -/
structure Body where
  x : ℚ
  y : ℚ
  vx : ℚ
  vy : ℚ
  mass : ℚ
  radius : ℚ
  color : ℕ × ℕ × ℕ
  name : String
  trail : List (ℤ × ℤ)
deriving DecidableEq

/-- The globals read by `Body.update_position`: `zoomed`, `camera_x`, `camera_y`. -/
structure ViewEnv where
  zoomed : Bool
  camera_x : ℚ
  camera_y : ℚ
deriving DecidableEq

/-- Scale selection, lines 80 and 88: `ZOOM_SCALE if zoomed else SCALE`. -/
def current_scale (zoomed : Bool) : ℚ := if zoomed then ZOOM_SCALE else SCALE

/-- World-to-screen projection, lines 81 and 90:
`screen_x = int(self.x * current_scale + WIDTH // 2 - camera_x)`. -/
def screen_x (zoomed : Bool) (camera_x : ℚ) (x : ℚ) : ℤ :=
  truncQ (x * current_scale zoomed + ((WIDTH / 2 : ℕ) : ℚ) - camera_x)

/-- World-to-screen projection, lines 82 and 91:
`screen_y = int(self.y * current_scale + HEIGHT // 2 - camera_y)`. -/
def screen_y (zoomed : Bool) (camera_y : ℚ) (y : ℚ) : ℤ :=
  truncQ (y * current_scale zoomed + ((HEIGHT / 2 : ℕ) : ℚ) - camera_y)

/-- Trail append, lines 83-85: append the new screen point, then `pop(0)`
(drop the oldest point) if the trail now exceeds 200 points. -/
def trailStep (t : List (ℤ × ℤ)) (p : ℤ × ℤ) : List (ℤ × ℤ) :=
  let t2 := t ++ [p]
  if t2.length > 200 then t2.tail else t2

/-- One iteration of the force loop of `update_position`, lines 58-67: the
force exerted on `self` by one `other` body, zero when the separation does
not exceed 1000 m (`if r > 1e3`). -/
def pairForce (sqrtp : ℚ → ℚ) (self other : Body) : ℚ × ℚ :=
  let dx := other.x - self.x
  let dy := other.y - self.y
  let r := sqrtp (dx^2 + dy^2)
  if r > 1000 then
    let f := G * self.mass * other.mass / r^2
    (f * dx / r, f * dy / r)
  else (0, 0)

lemma pairForce_def (sqrtp : ℚ → ℚ) (self other : Body) :
    pairForce sqrtp self other =
      if sqrtp ((other.x - self.x)^2 + (other.y - self.y)^2) > 1000 then
        (G * self.mass * other.mass / (sqrtp ((other.x - self.x)^2 + (other.y - self.y)^2))^2
           * (other.x - self.x) / sqrtp ((other.x - self.x)^2 + (other.y - self.y)^2),
         G * self.mass * other.mass / (sqrtp ((other.x - self.x)^2 + (other.y - self.y)^2))^2
           * (other.y - self.y) / sqrtp ((other.x - self.x)^2 + (other.y - self.y)^2))
      else (0, 0) := rfl

/-- Force accumulation of lines 57-67 for the body stored at index `i` of
`bs`.  Python's `if other != self` compares object identity; since the list
entries are distinct objects, it is exactly the entry the loop variable came
from, modelled by skipping index `i`. -/
def netForce (sqrtp : ℚ → ℚ) (bs : List Body) (i : ℕ) (self : Body) : ℚ × ℚ :=
  bs.enum.foldl
    (fun acc jo =>
      if jo.1 = i then acc
      else (acc.1 + (pairForce sqrtp self jo.2).1, acc.2 + (pairForce sqrtp self jo.2).2))
    (0, 0)

/-- Method `Body.update_position(bodies)`, lines 56-85, for the body `self`
stored at index `i` of `bs`: accumulate the net force, divide by the mass,
advance the velocity, advance the position with the new velocity, and append
the projected new position to the trail. -/
def update_position (sqrtp : ℚ → ℚ) (env : ViewEnv) (self : Body) (bs : List Body) (i : ℕ) :
    Body :=
  let F := netForce sqrtp bs i self
  let ax := F.1 / self.mass
  let ay := F.2 / self.mass
  let vx := self.vx + ax * DT
  let vy := self.vy + ay * DT
  let x := self.x + vx * DT
  let y := self.y + vy * DT
  { self with
    x := x, y := y, vx := vx, vy := vy,
    trail := trailStep self.trail
      (screen_x env.zoomed env.camera_x x, screen_y env.zoomed env.camera_y y) }

/-- Radicand of the perihelion speed of `get_initial_conditions`, line 134:
the square of `v = sqrt(G * central_mass * (1 + e) / (a * (1 - e)))`. -/
def perihelion_speed_sq (a e central_mass : ℚ) : ℚ :=
  G * central_mass * (1 + e) / (a * (1 - e))

/-- Function `get_initial_conditions`, lines 126-137: place a body at
perihelion distance `a * (1 - e)` on the x-axis with tangential speed
`sqrt(G * central_mass * (1 + e) / (a * (1 - e)))` along the y-axis; the
central body (`a == 0`) is placed at the origin at rest. -/
def get_initial_conditions (sqrtp : ℚ → ℚ) (a e mass radius : ℚ) (color : ℕ × ℕ × ℕ)
    (name : String) (central_mass : ℚ) : Body :=
  let r := a * (1 - e)
  let x := r
  let y : ℚ := 0
  if a = 0 then
    { x := 0, y := 0, vx := 0, vy := 0, mass := mass, radius := radius, color := color,
      name := name, trail := [] }
  else
    let v := sqrtp (G * central_mass * (1 + e) / (a * (1 - e)))
    { x := x, y := y, vx := 0, vy := v, mass := mass, radius := radius, color := color,
      name := name, trail := [] }

/-- One record of `planets_data`, lines 113-124. -/
structure PlanetData where
  a : ℚ
  e : ℚ
  mass : ℚ
  radius : ℚ
  color : ℕ × ℕ × ℕ
  name : String
deriving DecidableEq

/-- Table `planets_data`, lines 113-124. -/
def planets_data : List PlanetData :=
  [⟨0, 0, 1989 * 10^27, 8, (255, 255, 0), "Sun"⟩,
   ⟨5791 * 10^7, 2056 / 10^4, 3301 * 10^20, 2, (169, 169, 169), "Mercury"⟩,
   ⟨1082 * 10^8, 67 / 10^4, 4867 * 10^21, 3, (255, 165, 0), "Venus"⟩,
   ⟨1496 * 10^8, 167 / 10^4, 5972 * 10^21, 4, (0, 100, 255), "Earth"⟩,
   ⟨2279 * 10^8, 934 / 10^4, 639 * 10^21, 3, (255, 100, 0), "Mars"⟩,
   ⟨7785 * 10^8, 489 / 10^4, 1898 * 10^24, 6, (200, 150, 100), "Jupiter"⟩,
   ⟨1429 * 10^9, 565 / 10^4, 5683 * 10^23, 5, (250, 200, 100), "Saturn"⟩,
   ⟨2871 * 10^9, 463 / 10^4, 8681 * 10^22, 4, (100, 200, 255), "Uranus"⟩,
   ⟨4498 * 10^9, 86 / 10^4, 1024 * 10^23, 4, (0, 0, 255), "Neptune"⟩,
   ⟨5906 * 10^9, 2488 / 10^4, 1309 * 10^19, 2, (150, 100, 50), "Pluto"⟩]

/-- Default central mass of `get_initial_conditions`, line 126: `1.989e30`. -/
def central_mass_default : ℚ := 1989 * 10^27

/-- Lines 142 and 147: `bodies = [get_initial_conditions(*data) for data in planets_data]`. -/
def initialBodies (sqrtp : ℚ → ℚ) : List Body :=
  planets_data.map (fun d =>
    get_initial_conditions sqrtp d.a d.e d.mass d.radius d.color d.name central_mass_default)

/-- Per-body work of one iteration of the frame loop, lines 206-209:
`body.update_position(bodies)` followed by `if trail_reset: body.trail = []`.
`acc` is the current state of the (mutated in place) list `bodies`, `i` the
index of the loop variable `body` in it. -/
def frameBody (sqrtp : ℚ → ℚ) (env : ViewEnv) (reset : Bool) (acc : List Body) (i : ℕ)
    (b : Body) : Body :=
  let b1 := update_position sqrtp env b acc i
  if reset then { b1 with trail := [] } else b1

/-- Mutate the body at index `i` of the list in place, as iteration `i` of
the loop `for body in bodies` (line 206) does. -/
def frameStepAt (sqrtp : ℚ → ℚ) (env : ViewEnv) (reset : Bool) (acc : List Body) (i : ℕ) :
    List Body :=
  match acc[i]? with
  | some b => acc.set i (frameBody sqrtp env reset acc i b)
  | none => acc

/-- Run the loop of line 206 over the first `n` indices. -/
def frameGo (sqrtp : ℚ → ℚ) (env : ViewEnv) (reset : Bool) (n : ℕ) (acc : List Body) :
    List Body :=
  (List.range n).foldl (frameStepAt sqrtp env reset) acc

/-- One whole frame of the simulation loop, lines 206-210: each body in turn
is updated against the current, partially updated list (Python mutates the
bodies of the shared list `bodies` in place, in iteration order). -/
def frameSeq (sqrtp : ℚ → ℚ) (env : ViewEnv) (reset : Bool) (bs : List Body) : List Body :=
  frameGo sqrtp env reset bs.length bs

/-- The snapshot semantics the specification asks for: every body is updated
against the pre-frame list `bs`.  This is not what the source does; it is
stated for comparison with `frameSeq`. -/
def frameSnap (sqrtp : ℚ → ℚ) (env : ViewEnv) (bs : List Body) : List Body :=
  bs.enum.map (fun jb => update_position sqrtp env jb.2 bs jb.1)

/-- Iterate `N` frames with no trail reset signalled. -/
def runFrames (sqrtp : ℚ → ℚ) (env : ViewEnv) : ℕ → List Body → List Body
  | 0, bs => bs
  | n + 1, bs => runFrames sqrtp env n (frameSeq sqrtp env false bs)

/-- Keys the event loop distinguishes, lines 161-173. -/
inductive Key
  | z
  | left
  | right
  | up
  | down
  | other
deriving DecidableEq

/-- Discrete input events of the event loop, lines 157-192.  Mouse positions
are integer pixel coordinates. -/
inductive Event
  | quit
  | keydown (k : Key)
  | mousebuttondown (button : ℕ) (pos : ℤ × ℤ)
  | mousebuttonup (button : ℕ)
  | mousemotion (pos : ℤ × ℤ)
deriving DecidableEq

/-- The mutable top-level state the event loop acts on: `running` (line 150),
the view state (`zoomed`, `camera_x`, `camera_y`, `panning`,
`last_mouse_pos`, lines 25-30), the one-shot `trail_reset` flag (line 151)
and the body list (line 147). -/
structure SimState where
  running : Bool
  zoomed : Bool
  camera_x : ℚ
  camera_y : ℚ
  panning : Bool
  last_mouse_pos : Option (ℤ × ℤ)
  trail_reset : Bool
  bodies : List Body
deriving DecidableEq

/-- Hit test of `reset_button = pygame.Rect(10, 10, 100, 30)` (line 34);
`Rect.collidepoint` includes the left/top edges and excludes right/bottom. -/
def reset_button_collide (p : ℤ × ℤ) : Bool :=
  decide (10 ≤ p.1) && decide (p.1 < 110) && decide (10 ≤ p.2) && decide (p.2 < 40)

/-- Function `reset_simulation`, lines 139-144: rebuild the body list from
`planets_data`, zero the camera offset, clear the zoom flag. -/
def reset_simulation (sqrtp : ℚ → ℚ) (s : SimState) : SimState :=
  { s with bodies := initialBodies sqrtp, camera_x := 0, camera_y := 0, zoomed := false }

/-- One iteration of the event loop, lines 157-192. -/
def applyEvent (sqrtp : ℚ → ℚ) (s : SimState) : Event → SimState
  | .quit => { s with running := false }
  | .keydown .z => { s with zoomed := !s.zoomed, trail_reset := true }
  | .keydown .left => { s with camera_x := s.camera_x - 50, trail_reset := true }
  | .keydown .right => { s with camera_x := s.camera_x + 50, trail_reset := true }
  | .keydown .up => { s with camera_y := s.camera_y - 50, trail_reset := true }
  | .keydown .down => { s with camera_y := s.camera_y + 50, trail_reset := true }
  | .keydown .other => s
  | .mousebuttondown b pos =>
      if b = 1 then
        if reset_button_collide pos then
          { reset_simulation sqrtp s with trail_reset := true }
        else
          { s with panning := true, last_mouse_pos := some pos }
      else s
  | .mousebuttonup b => if b = 1 then { s with panning := false } else s
  | .mousemotion pos =>
      if s.panning then
        match s.last_mouse_pos with
        | some lp =>
            { s with
              camera_x := s.camera_x + ((lp.1 - pos.1 : ℤ) : ℚ),
              camera_y := s.camera_y + ((lp.2 - pos.2 : ℤ) : ℚ),
              last_mouse_pos := some pos,
              trail_reset := true }
        | none => s
      else s

/-- The state at the top of the main loop on the first frame: lines 25-30,
147, 150-151.  Python would raise in the `MOUSEMOTION` handler were
`last_mouse_pos` still `None` while `panning` holds; the `none` branch of
`applyEvent` is unreachable from this state. -/
def initState (sqrtp : ℚ → ℚ) : SimState :=
  { running := true, zoomed := false, camera_x := 0, camera_y := 0,
    panning := false, last_mouse_pos := none, trail_reset := false,
    bodies := initialBodies sqrtp }

/-- States reachable by a sequence of input events from the initial state. -/
def runEvents (sqrtp : ℚ → ℚ) (evs : List Event) : SimState :=
  evs.foldl (applyEvent sqrtp) (initState sqrtp)

/-- The input events that only concern the view: any key press, pointer up,
pointer motion, and pointer down that is not a primary-button click on the
reset control. -/
def isViewEvent : Event → Bool
  | .quit => false
  | .keydown _ => true
  | .mousebuttondown b pos => !(b == 1 && reset_button_collide pos)
  | .mousebuttonup _ => true
  | .mousemotion _ => true

/-- Trivial square-root stand-in used by concrete instances whose conclusion
does not depend on the square-root values. -/
def zeroSqrt : ℚ → ℚ := fun _ => 0

/-- Square-root function used by concrete force instances; it agrees with the
mathematical square root at both points where those instances sample it
(1000^2 and 1020^2). -/
def sqB : ℚ → ℚ := fun s => if s = 1000000 then 1000 else if s = 1040400 then 1020 else 0

/-- A unit-mass test body at the origin. -/
def wbodyP : Body := ⟨0, 0, 0, 0, 1, 1, (200, 200, 200), "P", []⟩

/-- A unit-mass test body exactly 1000 m from `wbodyP`. -/
def wbodyQ : Body := ⟨1000, 0, 0, 0, 1, 1, (200, 200, 200), "Q", []⟩

/-- A unit-mass test body exactly 1020 m from `wbodyP`. -/
def wbodyR : Body := ⟨1020, 0, 0, 0, 1, 1, (200, 200, 200), "R", []⟩

/-- View environment with zoom off and the camera at the origin. -/
def cexEnv : ViewEnv := ⟨false, 0, 0⟩

/-- Mass chosen so that one frame of gravity from a body 1020 m away moves a
unit-mass body at rest by exactly 20 m: `G * cexMB / 1020^2 * DT^2 = 20`. -/
def cexMB : ℚ := 20 * 1020^2 / (G * DT^2)

/-- A unit-mass body at the origin, at rest. -/
def cexA : Body := ⟨0, 0, 0, 0, 1, 1, (255, 255, 255), "A", []⟩

/-- A body of mass `cexMB` at rest 1020 m from `cexA` on the x-axis. -/
def cexB : Body := ⟨1020, 0, 0, 0, cexMB, 1, (255, 255, 255), "B", []⟩

/-- A body with mass 1 and an empty trail, for concrete frame runs. -/
def testBody : Body := ⟨0, 0, 0, 0, 1, 1, (255, 255, 255), "T", []⟩

/-- Claim C4: one integration step first updates the velocity from the
acceleration obtained at the pre-update positions, then updates the position
from the already-updated velocity (semi-implicit Euler):
after the step, v2 = v + a * DT and x2 = x + v2 * DT. -/
theorem semi_implicit_euler_step (sqrtp : ℚ → ℚ) (env : ViewEnv) (self : Body)
    (bs : List Body) (i : ℕ) :
    (update_position sqrtp env self bs i).vx
      = self.vx + (netForce sqrtp bs i self).1 / self.mass * DT
    ∧ (update_position sqrtp env self bs i).vy
      = self.vy + (netForce sqrtp bs i self).2 / self.mass * DT
    ∧ (update_position sqrtp env self bs i).x
      = self.x + (update_position sqrtp env self bs i).vx * DT
    ∧ (update_position sqrtp env self bs i).y
      = self.y + (update_position sqrtp env self bs i).vy * DT :=
  ⟨rfl, rfl, rfl, rfl⟩

/-- Claim C2 (amended): the projection maps world coordinates to screen
coordinates by scaling, adding the fixed viewport center (450, 300), and
subtracting the camera offset, then truncating toward zero (Python `int`,
not rounding to nearest); the zoomed-in scale constant 1e-10 is strictly
larger than the zoomed-out scale constant 2.5e-11. -/
theorem projection_formula (zoomed : Bool) (cx cy x y : ℚ) :
    screen_x zoomed cx x
      = truncQ (x * (if zoomed then (1:ℚ)/10^10 else 25/10^12) + 450 - cx)
    ∧ screen_y zoomed cy y
      = truncQ (y * (if zoomed then (1:ℚ)/10^10 else 25/10^12) + 300 - cy)
    ∧ SCALE < ZOOM_SCALE := by
  refine ⟨?_, ?_, by norm_num [SCALE, ZOOM_SCALE]⟩ <;>
    norm_num [screen_x, screen_y, current_scale, SCALE, ZOOM_SCALE, WIDTH, HEIGHT]

/-- Claim C2 counterexample: the projection truncates, it does not round to
nearest.  At world x = 3.96e11, zoom off, camera at the origin, the code
computes int(459.9) = 459, while the claimed round(459.9) is 460. -/
theorem projection_round_cex :
    screen_x false 0 (396 * 10^9) = 459
    ∧ round ((396 * 10^9 : ℚ) * SCALE + 450 - 0) = 460 := by
  constructor
  · have h1 : (396 * 10^9 : ℚ) * current_scale false + ((WIDTH / 2 : ℕ) : ℚ) - 0 = 4599/10 := by
      norm_num [current_scale, SCALE, WIDTH]
    rw [screen_x, h1, truncQ, if_pos (by norm_num : (0:ℚ) ≤ 4599/10)]
    rw [Int.floor_eq_iff]
    norm_num
  · have h2 : (396 * 10^9 : ℚ) * SCALE + 450 - 0 = 4599/10 := by norm_num [SCALE]
    rw [h2, round_eq]
    have h3 : (4599/10 : ℚ) + 1/2 = 2302/5 := by norm_num
    rw [h3, Int.floor_eq_iff]
    norm_num

/-- Claim C5: a pairwise force contribution is exactly zero whenever the
separation r satisfies r ≤ 1000 m (including r = 1000 exactly), and for
r > 1000 m it is the nonzero force G*m1*m2/r^2 decomposed along the
displacement; the divisions by r happen only under the r > 1000 guard. -/
theorem force_floor (sqrtp : ℚ → ℚ) (a b : Body) (r : ℚ)
    (hs : sqrtp ((b.x - a.x)^2 + (b.y - a.y)^2) = r)
    (hr : r^2 = (b.x - a.x)^2 + (b.y - a.y)^2)
    (hr0 : 0 ≤ r) (hma : 0 < a.mass) (hmb : 0 < b.mass) :
    (r ≤ 1000 → pairForce sqrtp a b = (0, 0))
    ∧ (1000 < r →
        pairForce sqrtp a b
          = (G * a.mass * b.mass / r^2 * (b.x - a.x) / r,
             G * a.mass * b.mass / r^2 * (b.y - a.y) / r)
        ∧ pairForce sqrtp a b ≠ (0, 0)) := by
  rw [pairForce_def, hs]
  constructor
  · intro hle
    rw [if_neg (not_lt.mpr hle)]
  · intro hlt
    rw [if_pos hlt]
    refine ⟨rfl, ?_⟩
    have hrpos : (0:ℚ) < r := lt_trans (by norm_num) hlt
    have hrne : r ≠ 0 := ne_of_gt hrpos
    have hfpos : 0 < G * a.mass * b.mass / r^2 := by
      have hG : (0:ℚ) < G := by norm_num [G]
      positivity
    have hfne : G * a.mass * b.mass / r^2 ≠ 0 := ne_of_gt hfpos
    have hsum : 0 < (b.x - a.x)^2 + (b.y - a.y)^2 := by
      rw [← hr]; positivity
    intro hzero
    rw [Prod.mk.injEq] at hzero
    obtain ⟨h1, h2⟩ := hzero
    have hdx : b.x - a.x = 0 := by
      rcases div_eq_zero_iff.mp h1 with h3 | h3
      · rcases mul_eq_zero.mp h3 with h4 | h4
        · exact absurd h4 hfne
        · exact h4
      · exact absurd h3 hrne
    have hdy : b.y - a.y = 0 := by
      rcases div_eq_zero_iff.mp h2 with h3 | h3
      · rcases mul_eq_zero.mp h3 with h4 | h4
        · exact absurd h4 hfne
        · exact h4
      · exact absurd h3 hrne
    rw [hdx, hdy] at hsum
    norm_num at hsum

/-- Witness for C5 at separation exactly 1000 m (the boundary): both parts of
`force_floor` instantiated at concrete bodies, all hypotheses discharged. -/
theorem force_floor_witness :
    sqB ((wbodyQ.x - wbodyP.x)^2 + (wbodyQ.y - wbodyP.y)^2) = 1000
    ∧ (((1000:ℚ) ≤ 1000 → pairForce sqB wbodyP wbodyQ = (0, 0))
       ∧ ((1000:ℚ) < 1000 →
           pairForce sqB wbodyP wbodyQ
             = (G * wbodyP.mass * wbodyQ.mass / (1000:ℚ)^2 * (wbodyQ.x - wbodyP.x) / 1000,
                G * wbodyP.mass * wbodyQ.mass / (1000:ℚ)^2 * (wbodyQ.y - wbodyP.y) / 1000)
           ∧ pairForce sqB wbodyP wbodyQ ≠ (0, 0))) :=
  ⟨by norm_num [sqB, wbodyP, wbodyQ],
   force_floor sqB wbodyP wbodyQ 1000
     (by norm_num [sqB, wbodyP, wbodyQ])
     (by norm_num [wbodyP, wbodyQ])
     (by norm_num)
     (by norm_num [wbodyP])
     (by norm_num [wbodyQ])⟩

/-- Claim C9: for two bodies beyond the 1000 m floor, the implemented force
of one on the other is the exact negation of the force of the other on the
one (equal magnitude, opposite direction): Newton's third law. -/
theorem newton_third_law (sqrtp : ℚ → ℚ) (a b : Body)
    (h : 1000 < sqrtp ((b.x - a.x)^2 + (b.y - a.y)^2)) :
    pairForce sqrtp b a = (-(pairForce sqrtp a b).1, -(pairForce sqrtp a b).2)
    ∧ (pairForce sqrtp b a).1^2 + (pairForce sqrtp b a).2^2
        = (pairForce sqrtp a b).1^2 + (pairForce sqrtp a b).2^2 := by
  have harg : (a.x - b.x)^2 + (a.y - b.y)^2 = (b.x - a.x)^2 + (b.y - a.y)^2 := by ring
  have hmain : pairForce sqrtp b a
      = (-(pairForce sqrtp a b).1, -(pairForce sqrtp a b).2) := by
    rw [pairForce_def sqrtp b a, pairForce_def sqrtp a b, harg]
    rw [if_pos h, if_pos h, Prod.mk.injEq]
    constructor <;> ring
  refine ⟨hmain, ?_⟩
  rw [hmain]
  simp only [Prod.fst, Prod.snd]
  ring

/-- Claim C3 (amended): the orbit initializer returns the origin at rest for
a = 0; for a > 0, 0 ≤ e < 1, mass > 0, central mass > 0 it returns position
(a*(1-e), 0) and velocity (0, sqrt(G*centralMass*(1+e)/(a*(1-e)))); for the
Earth row (a = 1.496e11, e = 0.0167, central mass 1.989e30) the position is
exactly (1.4710168e11, 0) ≈ (1.4711e11, 0) and the squared speed lies
strictly between 30290^2 and 30291^2, so the speed is ≈ 3.029e4 m/s (not
≈ 2.978e4 m/s). -/
theorem orbit_initializer (sqrtp : ℚ → ℚ) (a e mass radius central : ℚ)
    (color : ℕ × ℕ × ℕ) (name : String)
    (ha : 0 < a) (he0 : 0 ≤ e) (he1 : e < 1) (hm : 0 < mass) (hc : 0 < central) :
    get_initial_conditions sqrtp 0 e mass radius color name central
      = { x := 0, y := 0, vx := 0, vy := 0, mass := mass, radius := radius,
          color := color, name := name, trail := [] }
    ∧ get_initial_conditions sqrtp a e mass radius color name central
      = { x := a * (1 - e), y := 0, vx := 0,
          vy := sqrtp (perihelion_speed_sq a e central), mass := mass, radius := radius,
          color := color, name := name, trail := [] }
    ∧ (get_initial_conditions sqrtp (1496 * 10^8) (167 / 10^4) (5972 * 10^21) 4
         (0, 100, 255) "Earth" central_mass_default).x = 147101680000
    ∧ (30290:ℚ)^2 < perihelion_speed_sq (1496 * 10^8) (167 / 10^4) central_mass_default
    ∧ perihelion_speed_sq (1496 * 10^8) (167 / 10^4) central_mass_default < (30291:ℚ)^2 := by
  refine ⟨?_, ?_, ?_, ?_, ?_⟩
  · simp [get_initial_conditions]
  · simp [get_initial_conditions, perihelion_speed_sq, if_neg (ne_of_gt ha)]
  · norm_num [get_initial_conditions, central_mass_default]
  · norm_num [perihelion_speed_sq, G, central_mass_default]
  · norm_num [perihelion_speed_sq, G, central_mass_default]

/-- Witness for C3 at the Earth row of the configuration table. -/
theorem orbit_initializer_witness :
    (0:ℚ) < 1496 * 10^8
    ∧ (get_initial_conditions zeroSqrt (1496 * 10^8) (167 / 10^4) (5972 * 10^21) 4
         (0, 100, 255) "Earth" central_mass_default).x = 147101680000 :=
  ⟨by norm_num,
   (orbit_initializer zeroSqrt (1496 * 10^8) (167 / 10^4) (5972 * 10^21) 4 central_mass_default
     (0, 100, 255) "Earth" (by norm_num) (by norm_num) (by norm_num) (by norm_num)
     (by norm_num [central_mass_default])).2.2.1⟩

/-- Claim C3 counterexample: the claim puts the Earth-row speed at
≈ 2.978e4 m/s, but the code's squared speed G*M*(1+e)/(a*(1-e)) lies
strictly between (29780 + 510)^2 and (29780 + 511)^2, i.e. the speed is
30290..30291 m/s (≈ 3.029e4), more than 510 m/s above the claimed value. -/
theorem orbit_initializer_cex :
    (29780 + 510 : ℚ)^2 < perihelion_speed_sq (1496 * 10^8) (167 / 10^4) central_mass_default
    ∧ perihelion_speed_sq (1496 * 10^8) (167 / 10^4) central_mass_default
        < (29780 + 511 : ℚ)^2 := by
  constructor <;> norm_num [perihelion_speed_sq, G, central_mass_default]

lemma netForce_pair_zero (sqrtp : ℚ → ℚ) (x y b : Body) :
    netForce sqrtp [x, y] 0 b
      = (0 + (pairForce sqrtp b y).1, 0 + (pairForce sqrtp b y).2) := rfl

lemma netForce_pair_one (sqrtp : ℚ → ℚ) (x y b : Body) :
    netForce sqrtp [x, y] 1 b
      = (0 + (pairForce sqrtp b x).1, 0 + (pairForce sqrtp b x).2) := rfl

lemma frameSeq_pair (sqrtp : ℚ → ℚ) (env : ViewEnv) (b0 b1 : Body) :
    frameSeq sqrtp env false [b0, b1]
      = [update_position sqrtp env b0 [b0, b1] 0,
         update_position sqrtp env b1 [update_position sqrtp env b0 [b0, b1] 0, b1] 1] := rfl

lemma frameSnap_pair (sqrtp : ℚ → ℚ) (env : ViewEnv) (b0 b1 : Body) :
    frameSnap sqrtp env [b0, b1]
      = [update_position sqrtp env b0 [b0, b1] 0,
         update_position sqrtp env b1 [b0, b1] 1] := rfl

/-- Claim C1 (amended): the frame loop advances the bodies sequentially, in
iteration order, against the shared, partially updated list: the second
body's acceleration is computed from the first body's already-advanced
position, not from the pre-frame snapshot. -/
theorem frame_sequential_update (sqrtp : ℚ → ℚ) (env : ViewEnv) (b0 b1 : Body) :
    frameSeq sqrtp env false [b0, b1]
      = [update_position sqrtp env b0 [b0, b1] 0,
         update_position sqrtp env b1 [update_position sqrtp env b0 [b0, b1] 0, b1] 1]
    ∧ frameSnap sqrtp env [b0, b1]
      = [update_position sqrtp env b0 [b0, b1] 0,
         update_position sqrtp env b1 [b0, b1] 1] :=
  ⟨frameSeq_pair sqrtp env b0 b1, frameSnap_pair sqrtp env b0 b1⟩

/-- Claim C1 counterexample: a concrete two-body frame in which the result is
not the one computed from the pre-frame snapshot.  Body A (mass 1, at the
origin) is pulled 20 m toward body B (1020 m away, its mass chosen to make
that displacement exact); B then sees A at distance exactly 1000 m, inside
the force floor, and receives zero force, while the snapshot semantics gives
B a nonzero velocity.  The square-root function used agrees with the real
square root at both sampled points, 1020^2 and 1000^2. -/
theorem frame_snapshot_cex :
    sqB 1040400 * sqB 1040400 = 1040400
    ∧ sqB 1000000 * sqB 1000000 = 1000000
    ∧ (0:ℚ) ≤ sqB 1040400 ∧ (0:ℚ) ≤ sqB 1000000
    ∧ (frameSeq sqB cexEnv false [cexA, cexB]).map Body.vx
        ≠ (frameSnap sqB cexEnv [cexA, cexB]).map Body.vx := by
  refine ⟨by norm_num [sqB], by norm_num [sqB], by norm_num [sqB], by norm_num [sqB], ?_⟩
  rw [frameSeq_pair, frameSnap_pair]
  have h0x : (update_position sqB cexEnv cexA [cexA, cexB] 0).x = 20 := by
    have he : (update_position sqB cexEnv cexA [cexA, cexB] 0).x
        = cexA.x + (cexA.vx + (netForce sqB [cexA, cexB] 0 cexA).1 / cexA.mass * DT) * DT := rfl
    rw [he, netForce_pair_zero, pairForce_def]
    norm_num [sqB, cexA, cexB, cexMB, G, DT]
  have h0y : (update_position sqB cexEnv cexA [cexA, cexB] 0).y = 0 := by
    have he : (update_position sqB cexEnv cexA [cexA, cexB] 0).y
        = cexA.y + (cexA.vy + (netForce sqB [cexA, cexB] 0 cexA).2 / cexA.mass * DT) * DT := rfl
    rw [he, netForce_pair_zero, pairForce_def]
    norm_num [sqB, cexA, cexB, cexMB, G, DT]
  have hseq : (update_position sqB cexEnv cexB
      [update_position sqB cexEnv cexA [cexA, cexB] 0, cexB] 1).vx = 0 := by
    have he : (update_position sqB cexEnv cexB
          [update_position sqB cexEnv cexA [cexA, cexB] 0, cexB] 1).vx
        = cexB.vx + (netForce sqB [update_position sqB cexEnv cexA [cexA, cexB] 0, cexB] 1
            cexB).1 / cexB.mass * DT := rfl
    rw [he, netForce_pair_one, pairForce_def, h0x, h0y]
    norm_num [sqB, cexB, cexMB, DT]
  have hsnap : (update_position sqB cexEnv cexB [cexA, cexB] 1).vx ≠ 0 := by
    have he : (update_position sqB cexEnv cexB [cexA, cexB] 1).vx
        = cexB.vx + (netForce sqB [cexA, cexB] 1 cexB).1 / cexB.mass * DT := rfl
    rw [he, netForce_pair_one, pairForce_def]
    norm_num [sqB, cexA, cexB, cexMB, G, DT]
  simp only [List.map_cons, List.map_nil]
  intro hcontra
  injection hcontra with h1 h2
  injection h2 with h2 h3
  rw [hseq] at h2
  exact hsnap h2.symm

/-- Witness for C9 at separation 1020 m. -/
theorem newton_third_law_witness :
    1000 < sqB ((wbodyR.x - wbodyP.x)^2 + (wbodyR.y - wbodyP.y)^2)
    ∧ (pairForce sqB wbodyR wbodyP
         = (-(pairForce sqB wbodyP wbodyR).1, -(pairForce sqB wbodyP wbodyR).2)
       ∧ (pairForce sqB wbodyR wbodyP).1^2 + (pairForce sqB wbodyR wbodyP).2^2
           = (pairForce sqB wbodyP wbodyR).1^2 + (pairForce sqB wbodyP wbodyR).2^2) :=
  ⟨by norm_num [sqB, wbodyR, wbodyP],
   newton_third_law sqB wbodyP wbodyR (by norm_num [sqB, wbodyR, wbodyP])⟩

lemma applyEvent_pan_inv (sqrtp : ℚ → ℚ) (s : SimState) (e : Event)
    (h : s.panning = true → s.last_mouse_pos ≠ none) :
    (applyEvent sqrtp s e).panning = true → (applyEvent sqrtp s e).last_mouse_pos ≠ none := by
  cases e with
  | quit => exact h
  | keydown k => cases k <;> exact h
  | mousebuttondown b pos =>
      by_cases hb : b = 1
      · subst hb
        by_cases hc : reset_button_collide pos
        · simp only [applyEvent, if_pos rfl, if_pos hc]
          exact h
        · simp only [applyEvent, if_pos rfl, if_neg hc]
          intro _
          exact Option.some_ne_none pos
      · simp only [applyEvent, if_neg hb]
        exact h
  | mousebuttonup b =>
      by_cases hb : b = 1
      · subst hb
        simp only [applyEvent, if_pos rfl]
        intro hpan
        exact absurd hpan (by simp)
      · simp only [applyEvent, if_neg hb]
        exact h
  | mousemotion pos =>
      by_cases hp : s.panning = true
      · cases hlp : s.last_mouse_pos with
        | none =>
            exact fun _ => absurd hlp (h hp)
        | some lp =>
            simp only [applyEvent, if_pos hp, hlp]
            intro _
            exact Option.some_ne_none pos
      · simp only [applyEvent, if_neg hp]
        exact h

lemma runEvents_pan_inv (sqrtp : ℚ → ℚ) :
    ∀ (evs : List Event) (s : SimState), (s.panning = true → s.last_mouse_pos ≠ none) →
      ((evs.foldl (applyEvent sqrtp) s).panning = true →
        (evs.foldl (applyEvent sqrtp) s).last_mouse_pos ≠ none) := by
  intro evs
  induction evs with
  | nil => intro s h; exact h
  | cons e evs ih =>
      intro s h
      exact ih (applyEvent sqrtp s e) (applyEvent_pan_inv sqrtp s e h)

/-- Claim C7 (amended): in every state reachable by input events from the
initial state, if the panning flag is set then the last-pointer-position is
defined; a primary-button pointer-up clears the panning flag but leaves the
last-pointer-position untouched, so it stays defined after a pan ends. -/
theorem panning_anchor_invariant (sqrtp : ℚ → ℚ) (evs : List Event)
    (h : (runEvents sqrtp evs).panning = true) :
    (runEvents sqrtp evs).last_mouse_pos ≠ none
    ∧ ∀ (t : SimState) (b : ℕ),
        (applyEvent sqrtp t (Event.mousebuttonup b)).last_mouse_pos = t.last_mouse_pos := by
  constructor
  · exact runEvents_pan_inv sqrtp evs (initState sqrtp) (by intro hpan; exact absurd hpan (by simp [initState])) h
  · intro t b
    by_cases hb : b = 1
    · subst hb; rfl
    · simp only [applyEvent, if_neg hb]

/-- Witness for C7 after a single pointer-down off the reset control. -/
theorem panning_anchor_invariant_witness :
    (runEvents zeroSqrt [Event.mousebuttondown 1 (200, 200)]).panning = true
    ∧ ((runEvents zeroSqrt [Event.mousebuttondown 1 (200, 200)]).last_mouse_pos ≠ none
       ∧ ∀ (t : SimState) (b : ℕ),
           (applyEvent zeroSqrt t (Event.mousebuttonup b)).last_mouse_pos
             = t.last_mouse_pos) :=
  ⟨rfl, panning_anchor_invariant zeroSqrt [Event.mousebuttondown 1 (200, 200)] rfl⟩

/-- Claim C7 counterexample: the claimed "defined iff panning" invariant
fails.  After pointer-down at (200, 200) (off the reset control) followed by
primary-button pointer-up, panning is false again but the last-pointer
position is still `some (200, 200)`: the code never resets `last_mouse_pos`
to `None` on pointer-up (lines 184-186). -/
theorem panning_anchor_cex :
    (runEvents zeroSqrt [Event.mousebuttondown 1 (200, 200),
        Event.mousebuttonup 1]).panning = false
    ∧ (runEvents zeroSqrt [Event.mousebuttondown 1 (200, 200),
        Event.mousebuttonup 1]).last_mouse_pos = some (200, 200) :=
  ⟨rfl, rfl⟩

/-- Claim C8: the reset command is idempotent.  A primary-button click on the
reset control rebuilds the body list from the static configuration, zeroes
the camera offset, clears the zoom flag and raises the trail-reset signal;
performing it again from the resulting state produces the identical state. -/
theorem reset_idempotent (sqrtp : ℚ → ℚ) (s : SimState) (pos : ℤ × ℤ)
    (h : reset_button_collide pos = true) :
    applyEvent sqrtp (applyEvent sqrtp s (Event.mousebuttondown 1 pos))
        (Event.mousebuttondown 1 pos)
      = applyEvent sqrtp s (Event.mousebuttondown 1 pos)
    ∧ (applyEvent sqrtp s (Event.mousebuttondown 1 pos)).bodies = initialBodies sqrtp
    ∧ (applyEvent sqrtp s (Event.mousebuttondown 1 pos)).camera_x = 0
    ∧ (applyEvent sqrtp s (Event.mousebuttondown 1 pos)).camera_y = 0
    ∧ (applyEvent sqrtp s (Event.mousebuttondown 1 pos)).zoomed = false
    ∧ (applyEvent sqrtp s (Event.mousebuttondown 1 pos)).trail_reset = true := by
  refine ⟨?_, ?_, ?_, ?_, ?_, ?_⟩ <;>
    simp only [applyEvent, reset_simulation, if_pos rfl, h, if_true]

/-- Witness for C8: a double click on the reset control from the initial
state. -/
theorem reset_idempotent_witness :
    reset_button_collide (15, 15) = true
    ∧ (applyEvent zeroSqrt
          (applyEvent zeroSqrt (initState zeroSqrt) (Event.mousebuttondown 1 (15, 15)))
          (Event.mousebuttondown 1 (15, 15))
        = applyEvent zeroSqrt (initState zeroSqrt) (Event.mousebuttondown 1 (15, 15))
       ∧ (applyEvent zeroSqrt (initState zeroSqrt)
            (Event.mousebuttondown 1 (15, 15))).bodies = initialBodies zeroSqrt
       ∧ (applyEvent zeroSqrt (initState zeroSqrt)
            (Event.mousebuttondown 1 (15, 15))).camera_x = 0
       ∧ (applyEvent zeroSqrt (initState zeroSqrt)
            (Event.mousebuttondown 1 (15, 15))).camera_y = 0
       ∧ (applyEvent zeroSqrt (initState zeroSqrt)
            (Event.mousebuttondown 1 (15, 15))).zoomed = false
       ∧ (applyEvent zeroSqrt (initState zeroSqrt)
            (Event.mousebuttondown 1 (15, 15))).trail_reset = true) :=
  ⟨by decide, reset_idempotent zeroSqrt (initState zeroSqrt) (15, 15) (by decide)⟩

/-- Claim C10: every view-only input event (any key press, pointer up,
pointer motion, and pointer down that is not a primary click on the reset
control) leaves the body list untouched when it is applied, and also leaves
the running flag untouched; only the view state and the trail-reset signal
change. -/
theorem view_events_fix_bodies (sqrtp : ℚ → ℚ) (s : SimState) (e : Event)
    (h : isViewEvent e = true) :
    (applyEvent sqrtp s e).bodies = s.bodies
    ∧ (applyEvent sqrtp s e).running = s.running := by
  cases e with
  | quit => exact absurd h (by simp [isViewEvent])
  | keydown k => cases k <;> exact ⟨rfl, rfl⟩
  | mousebuttondown b pos =>
      by_cases hb : b = 1
      · subst hb
        have hc : reset_button_collide pos = false := by
          cases hcc : reset_button_collide pos with
          | false => rfl
          | true => simp [isViewEvent, hcc] at h
        simp [applyEvent, hc]
      · simp [applyEvent, hb]
  | mousebuttonup b =>
      by_cases hb : b = 1
      · subst hb
        simp [applyEvent]
      · simp [applyEvent, hb]
  | mousemotion pos =>
      by_cases hp : s.panning = true
      · cases hlp : s.last_mouse_pos with
        | none => simp [applyEvent, hp, hlp]
        | some lp => simp [applyEvent, hp, hlp]
      · simp [applyEvent, hp]

/-- Witness for C10 at the zoom-toggle key. -/
theorem view_events_fix_bodies_witness :
    isViewEvent (Event.keydown Key.z) = true
    ∧ ((applyEvent zeroSqrt (initState zeroSqrt) (Event.keydown Key.z)).bodies
         = (initState zeroSqrt).bodies
       ∧ (applyEvent zeroSqrt (initState zeroSqrt) (Event.keydown Key.z)).running
         = (initState zeroSqrt).running) :=
  ⟨rfl, view_events_fix_bodies zeroSqrt (initState zeroSqrt) (Event.keydown Key.z) rfl⟩

lemma trailStep_length (t : List (ℤ × ℤ)) (p : ℤ × ℤ) (h : t.length ≤ 200) :
    (trailStep t p).length = min (t.length + 1) 200 := by
  simp only [trailStep]
  split
  · next hgt =>
      simp only [List.length_tail, List.length_append, List.length_singleton] at hgt ⊢
      omega
  · next hle =>
      simp only [List.length_append, List.length_singleton] at hle ⊢
      omega

lemma trailStep_fifo (t : List (ℤ × ℤ)) (p : ℤ × ℤ) (h : t.length = 200) :
    trailStep t p = t.tail ++ [p] := by
  simp only [trailStep]
  rw [if_pos (by simp [h])]
  cases t with
  | nil => simp at h
  | cons a t2 => simp

lemma frameStepAt_length (sqrtp : ℚ → ℚ) (env : ViewEnv) (reset : Bool) (acc : List Body)
    (i : ℕ) : (frameStepAt sqrtp env reset acc i).length = acc.length := by
  cases h : acc[i]? with
  | none => simp [frameStepAt, h]
  | some b => simp [frameStepAt, h]

lemma frameStepAt_get_ne (sqrtp : ℚ → ℚ) (env : ViewEnv) (reset : Bool) (acc : List Body)
    (i j : ℕ) (hne : i ≠ j) :
    (frameStepAt sqrtp env reset acc i)[j]? = acc[j]? := by
  cases h : acc[i]? with
  | none => simp [frameStepAt, h]
  | some b => simp [frameStepAt, h, List.getElem?_set_ne hne]

lemma frameGo_succ (sqrtp : ℚ → ℚ) (env : ViewEnv) (reset : Bool) (n : ℕ) (acc : List Body) :
    frameGo sqrtp env reset (n + 1) acc
      = frameStepAt sqrtp env reset (frameGo sqrtp env reset n acc) n := by
  simp [frameGo, List.range_succ]

lemma frameGo_length (sqrtp : ℚ → ℚ) (env : ViewEnv) (reset : Bool) :
    ∀ (n : ℕ) (acc : List Body), (frameGo sqrtp env reset n acc).length = acc.length := by
  intro n
  induction n with
  | zero => intro acc; rfl
  | succ n ih =>
      intro acc
      rw [frameGo_succ, frameStepAt_length, ih]

lemma frameGo_get_ge (sqrtp : ℚ → ℚ) (env : ViewEnv) (reset : Bool) :
    ∀ (n : ℕ) (acc : List Body) (j : ℕ), n ≤ j →
      (frameGo sqrtp env reset n acc)[j]? = acc[j]? := by
  intro n
  induction n with
  | zero => intro acc j _; rfl
  | succ n ih =>
      intro acc j hj
      rw [frameGo_succ, frameStepAt_get_ne _ _ _ _ _ _ (by omega : n ≠ j), ih acc j (by omega)]

lemma frameGo_get_lt (sqrtp : ℚ → ℚ) (env : ViewEnv) (reset : Bool) :
    ∀ (n : ℕ) (acc : List Body) (i : ℕ), i < n →
      ∃ acc2 : List Body, acc2.length = acc.length ∧ acc2[i]? = acc[i]? ∧
        (frameGo sqrtp env reset n acc)[i]?
          = (acc[i]?).map (fun b => frameBody sqrtp env reset acc2 i b) := by
  intro n
  induction n with
  | zero => intro acc i h; exact absurd h (Nat.not_lt_zero i)
  | succ n ih =>
      intro acc i hi
      rcases Nat.lt_succ_iff_lt_or_eq.mp hi with h | rfl
      · obtain ⟨acc2, hlen, hget, heq⟩ := ih acc i h
        refine ⟨acc2, hlen, hget, ?_⟩
        rw [frameGo_succ, frameStepAt_get_ne _ _ _ _ _ _ (by omega : n ≠ i), heq]
      · refine ⟨frameGo sqrtp env reset i acc, frameGo_length _ _ _ _ _,
          frameGo_get_ge _ _ _ _ _ _ le_rfl, ?_⟩
        rw [frameGo_succ]
        cases hg : (frameGo sqrtp env reset i acc)[i]? with
        | none =>
            have hacc : acc[i]? = none := by
              rw [← frameGo_get_ge sqrtp env reset i acc i le_rfl]; exact hg
            rw [hacc]
            simp [frameStepAt, hg]
        | some b =>
            have hacc : acc[i]? = some b := by
              rw [← frameGo_get_ge sqrtp env reset i acc i le_rfl]; exact hg
            have hlt : i < (frameGo sqrtp env reset i acc).length := by
              rw [frameGo_length]
              by_contra hno
              rw [List.getElem?_eq_none (Nat.le_of_not_lt hno)] at hacc
              exact Option.noConfusion hacc
            rw [hacc]
            simp only [frameStepAt, hg, Option.map_some']
            rw [List.getElem?_set_self hlt]

lemma frameSeq_get (sqrtp : ℚ → ℚ) (env : ViewEnv) (reset : Bool) (bs : List Body) (i : ℕ)
    (hi : i < bs.length) :
    ∃ acc2 : List Body, acc2.length = bs.length ∧ acc2[i]? = bs[i]? ∧
      (frameSeq sqrtp env reset bs)[i]?
        = (bs[i]?).map (fun b => frameBody sqrtp env reset acc2 i b) :=
  frameGo_get_lt sqrtp env reset bs.length bs i hi

lemma frameSeq_length (sqrtp : ℚ → ℚ) (env : ViewEnv) (reset : Bool) (bs : List Body) :
    (frameSeq sqrtp env reset bs).length = bs.length :=
  frameGo_length sqrtp env reset bs.length bs

lemma frameBody_trail_length (sqrtp : ℚ → ℚ) (env : ViewEnv) (acc : List Body) (i : ℕ)
    (b : Body) (h : b.trail.length ≤ 200) :
    (frameBody sqrtp env false acc i b).trail.length = min (b.trail.length + 1) 200 := by
  show (trailStep b.trail _).length = _
  exact trailStep_length _ _ h

lemma runFrames_trail_length (sqrtp : ℚ → ℚ) (env : ViewEnv) :
    ∀ (N : ℕ) (bs : List Body) (L : ℕ), L ≤ 200 →
      (∀ j, j < bs.length → (bs[j]?).map (fun b => b.trail.length) = some L) →
      ∀ i, i < bs.length →
        ((runFrames sqrtp env N bs)[i]?).map (fun b => b.trail.length)
          = some (min (L + N) 200) := by
  intro N
  induction N with
  | zero =>
      intro bs L hL h i hi
      have hmin : min (L + 0) 200 = L := by omega
      rw [hmin]
      exact h i hi
  | succ N ih =>
      intro bs L hL h i hi
      have hlen : (frameSeq sqrtp env false bs).length = bs.length :=
        frameSeq_length sqrtp env false bs
      have hstep : ∀ j, j < (frameSeq sqrtp env false bs).length →
          ((frameSeq sqrtp env false bs)[j]?).map (fun b => b.trail.length)
            = some (min (L + 1) 200) := by
        intro j hj
        rw [hlen] at hj
        obtain ⟨acc2, _, _, heq⟩ := frameSeq_get sqrtp env false bs j hj
        rw [heq]
        have hj2 := h j hj
        cases hbj : bs[j]? with
        | none => rw [hbj] at hj2; exact absurd hj2 (by simp)
        | some bj =>
            rw [hbj] at hj2
            rw [Option.map_some', Option.some.injEq] at hj2
            simp only [Option.map_some', Option.some.injEq]
            rw [frameBody_trail_length sqrtp env acc2 j bj (by omega)]
            omega
      have hrec := ih (frameSeq sqrtp env false bs) (min (L + 1) 200) (by omega) hstep i
        (by rw [hlen]; exact hi)
      show ((runFrames sqrtp env N (frameSeq sqrtp env false bs))[i]?).map
        (fun b => b.trail.length) = some (min (L + (N + 1)) 200)
      rw [hrec]
      congr 1
      omega

/-- Claim C6: for every body, after N frames from empty trails the trail
length is exactly min(N, 200); one trail append never pushes the length past
200; when the trail is full the oldest point is evicted first (FIFO); and a
frame in which the trail-reset signal is set leaves the body's trail empty
at the end of that frame. -/
theorem trail_bound_invariant (sqrtp : ℚ → ℚ) (env : ViewEnv) (N : ℕ) (bs : List Body)
    (i : ℕ) (t : List (ℤ × ℤ)) (p : ℤ × ℤ)
    (hbs : ∀ j, j < bs.length → (bs[j]?).map Body.trail = some [])
    (hi : i < bs.length) (ht : t.length ≤ 200) :
    ((runFrames sqrtp env N bs)[i]?).map (fun b => b.trail.length) = some (min N 200)
    ∧ (trailStep t p).length ≤ 200
    ∧ (t.length = 200 → trailStep t p = t.tail ++ [p])
    ∧ ((frameSeq sqrtp env true bs)[i]?).map Body.trail = some [] := by
  refine ⟨?_, ?_, ?_, ?_⟩
  · have h0 : ∀ j, j < bs.length → (bs[j]?).map (fun b => b.trail.length) = some 0 := by
      intro j hj
      have hj2 := hbs j hj
      cases hbj : bs[j]? with
      | none => rw [hbj] at hj2; exact absurd hj2 (by simp)
      | some bj =>
          rw [hbj] at hj2
          rw [Option.map_some', Option.some.injEq] at hj2
          simp [hj2]
    have hrun := runFrames_trail_length sqrtp env N bs 0 (by omega) h0 i hi
    have hmin : min (0 + N) 200 = min N 200 := by omega
    rw [hmin] at hrun
    exact hrun
  · rw [trailStep_length t p ht]; omega
  · exact trailStep_fifo t p
  · obtain ⟨acc2, _, _, heq⟩ := frameSeq_get sqrtp env true bs i hi
    rw [heq]
    have hi2 := hbs i hi
    cases hbi : bs[i]? with
    | none => rw [hbi] at hi2; exact absurd hi2 (by simp)
    | some bi => rfl

/-- Witness for C6: three frames of a single isolated body starting with an
empty trail, plus a concrete partially filled trail. -/
theorem trail_bound_invariant_witness :
    (∀ j, j < [testBody].length → ([testBody][j]?).map Body.trail = some [])
    ∧ (((runFrames zeroSqrt cexEnv 3 [testBody])[0]?).map (fun b => b.trail.length)
         = some (min 3 200)
       ∧ (trailStep [(0, 0)] (5, 5)).length ≤ 200
       ∧ ([(0, 0)].length = 200 → trailStep [(0, 0)] (5, 5) = [(0, 0)].tail ++ [(5, 5)])
       ∧ ((frameSeq zeroSqrt cexEnv true [testBody])[0]?).map Body.trail = some []) :=
  ⟨by decide,
   trail_bound_invariant zeroSqrt cexEnv 3 [testBody] 0 [(0, 0)] (5, 5)
     (by decide) (by decide) (by decide)⟩

end PlanetSim
